import Mathlib

/-!
Verification of the Catalyst-to-Meraki transfer tool (`config_tool.py`).

This file shallowly embeds the data model and the operations of the script:
* IPv4 network arithmetic as performed by Python's `ipaddress` module
  (addresses are naturals below `2^32`; `ip_network` with a netmask or a
  hostmask, with the `strict` flag),
* the SVI extraction `parse_svi_data`,
* the shutdown-interface extraction `parse_shut_intf`,
* the downlink-interface extraction `parse_intf_config` (including the
  single-target port remapping and the multi-target `module` recording),
* `check_default_gateway`, `create_default_svi` and `configure_meraki`,
  whose observable behaviour is modelled as the list of dashboard API
  calls it issues, plus the error / crash status of the run.

Python dictionaries are modelled as insertion-ordered association lists,
Python `str` sentinels (`""` for "absent") are kept where the source uses
them, fallible Python operations (`int(...)`, `del d[k]`, list indexing,
`str - int`) return `Except`/`Option` values.  The regex layer of
`ciscoconfparse` is treated as an external collaborator: blocks arrive
with their regex-extracted fields, exactly the data the source reads off
the matches.
-/

/-- Pack a dotted quad into the 32-bit natural the `ipaddress` module
computes for it. -/
def ipv4 (a b c d : Nat) : Nat := ((a * 256 + b) * 256 + c) * 256 + d

/-- The netmask with `p` leading one bits, e.g. `255.255.255.0` for `p = 24`. -/
def netmaskOfPrefix (p : Nat) : Nat := 2 ^ 32 - 2 ^ (32 - p)

/-- Recover a prefix length from a netmask (contiguous ones from the top),
as `ipaddress._make_netmask` does for dotted netmask strings. -/
def prefixOfNetmask (m : Nat) : Option Nat :=
  (List.range 33).find? (fun p => m == netmaskOfPrefix p)

/-- Recover a prefix length from a hostmask (contiguous ones from the
bottom), the fallback accepted by `ipaddress._make_netmask`. -/
def prefixOfHostmask (m : Nat) : Option Nat :=
  (List.range 33).find? (fun p => m == 2 ^ (32 - p) - 1)

/-- A mask is first tried as a netmask, then as a hostmask, mirroring the
order in `ipaddress._make_netmask`. -/
def prefixOfMask (m : Nat) : Option Nat :=
  (prefixOfNetmask m).orElse (fun _ => prefixOfHostmask m)

/-- `ipaddress.ip_network(f"{addr}/{mask}", strict)` on IPv4 data: the
address must fit in 32 bits, the mask must be a valid netmask or
hostmask, the network address is `addr & netmask` (CPython ANDs the
packed address with the packed netmask), and with `strict = true` host
bits in `addr` are a `ValueError` (`none`) instead of being masked off.
The resulting network is represented as `(network address, prefix length)`. -/
def ip_network (addr mask : Nat) (strict : Bool) : Option (Nat × Nat) :=
  if addr < 2 ^ 32 then
    match prefixOfMask mask with
    | some p =>
      let net := addr &&& netmaskOfPrefix p
      if strict && net != addr then none else some (net, p)
    | none => none
  else none

/-- Stated from the spec's words, independently of `ip_network`: the
"standard CIDR network of (address, mask) with host bits cleared
(non-strict)" — the low `32 - p` bits of the address are cleared by
division, never rejected. -/
def specCidrNonStrict (addr mask : Nat) : Option (Nat × Nat) :=
  if addr < 2 ^ 32 then
    match prefixOfMask mask with
    | some p => some (addr / 2 ^ (32 - p) * 2 ^ (32 - p), p)
    | none => none
  else none

/-- `ipaddress.ip_address(a) in network`: CPython compares the packed
address against the network and broadcast addresses. -/
def addressInNetwork (a : Nat) (net : Nat × Nat) : Bool :=
  decide (net.1 ≤ a ∧ a ≤ net.1 + (2 ^ (32 - net.2) - 1))

theorem prefixOfMask_le_32 {m p : Nat} (h : prefixOfMask m = some p) : p ≤ 32 := by
  have hmem : p ∈ List.range 33 := by
    unfold prefixOfMask at h
    rcases (Option.orElse_eq_some' _ _ _).mp h with h' | ⟨-, h'⟩ <;>
      exact List.mem_of_find?_eq_some h'
  have := List.mem_range.mp hmem
  omega

/-- ANDing with the netmask of prefix `p` clears the low `32 - p` bits:
for addresses below `2^32` this is exactly rounding down to a multiple
of `2^(32-p)`. -/
theorem and_netmask_eq_div_mul {a p : Nat} (hp : p ≤ 32) (ha : a < 2 ^ 32) :
    a &&& netmaskOfPrefix p = a / 2 ^ (32 - p) * 2 ^ (32 - p) := by
  have hmask : netmaskOfPrefix p = (2 ^ p - 1) <<< (32 - p) := by
    unfold netmaskOfPrefix
    rw [Nat.shiftLeft_eq, Nat.sub_mul, one_mul, ← pow_add]
    congr 2
    omega
  have hdiv : a / 2 ^ (32 - p) * 2 ^ (32 - p) = (a >>> (32 - p)) <<< (32 - p) := by
    rw [Nat.shiftLeft_eq, Nat.shiftRight_eq_div_pow]
  rw [hmask, hdiv]
  apply Nat.eq_of_testBit_eq
  intro i
  rw [Nat.testBit_and, Nat.testBit_shiftLeft, Nat.testBit_shiftLeft,
    Nat.testBit_shiftRight, Nat.testBit_two_pow_sub_one]
  by_cases hik : 32 - p ≤ i
  · by_cases hip : i - (32 - p) < p
    · have hi : 32 - p + (i - (32 - p)) = i := by omega
      simp [hik, hip, hi]
    · have hi32 : 32 ≤ i := by omega
      have h1 : a.testBit i = false :=
        Nat.testBit_lt_two_pow (lt_of_lt_of_le ha (Nat.pow_le_pow_right (by omega) hi32))
      have hi : 32 - p + (i - (32 - p)) = i := by omega
      simp [hik, hip, hi, h1]
  · simp [hik]

/-- On every input, the source's non-strict `ip_network` agrees with the
spec's description of the computation. -/
theorem ip_network_nonStrict_eq_spec (addr mask : Nat) :
    ip_network addr mask false = specCidrNonStrict addr mask := by
  unfold ip_network specCidrNonStrict
  by_cases ha : addr < 2 ^ 32
  · rw [if_pos ha, if_pos ha]
    cases hpm : prefixOfMask mask with
    | none => rfl
    | some p => simp [and_netmask_eq_div_mul (prefixOfMask_le_32 hpm) ha]
  · rw [if_neg ha, if_neg ha]

/-! ## Python dictionaries as insertion-ordered association lists -/

/-- A Python `dict` with string keys: an insertion-ordered association
list whose keys are unique (uniqueness is enforced by the operations,
as in CPython). -/
abbrev Dict (α : Type) := List (String × α)

/-- `d[k]` as a total lookup: the first binding of `k`. -/
def dictGet? (m : Dict α) (k : String) : Option α :=
  (m.find? (fun p => p.1 == k)).map (fun p => p.2)

/-- `k in d.keys()`. -/
def dictHasKey (m : Dict α) (k : String) : Bool :=
  m.any (fun p => p.1 == k)

/-- `d[k] = v`: replace in place if the key exists, else append, as a
CPython dict does. -/
def dictSet (m : Dict α) (k : String) (v : α) : Dict α :=
  if dictHasKey m k then
    m.map (fun p => if p.1 == k then (k, v) else p)
  else m ++ [(k, v)]

/-- `del d[k]`: a `KeyError` when the key is absent. -/
def pyDictDel (m : Dict α) (k : String) : Except String (Dict α) :=
  if dictHasKey m k then .ok (m.filter (fun p => p.1 != k))
  else .error "KeyError"

/-! ## `parse_svi_data` -/

/-- A child line of an `interface Vlan...` block, as classified by the
`if "description" in child.text / elif "ip address" in child.text`
cascade.  `descriptionLine d` carries the `description\s(.+)` match
(`""` when `re_match_typed` found no match on a line that contains the
word "description"); `ipAddressLine` carries the two dotted quads of
`ip\saddress\s([\d\.]+)\s([\d\.]+)` packed into naturals;
`ipAddressNoMatch` is a line containing "ip address" on which that regex
does not match (both extractions fall back to `""`). -/
inductive SviChild where
  | descriptionLine (d : String)
  | ipAddressLine (ip mask : Nat)
  | ipAddressNoMatch
  | otherLine
deriving DecidableEq, Repr

/-- An `interface Vlan<id>` block: the id is the first digit run of the
header (`re.search(r"\d+", vlan.text)`), the children are its direct
child lines. -/
structure VlanBlock where
  vlanId : String
  children : List SviChild
deriving DecidableEq, Repr

/-- The child scan of one VLAN block (source lines 91-102): `description`,
`ip_address`/`subnet_mask` start as `""` and each matching child
overwrites them.  The ip/mask pair is `none` exactly when the `""`
sentinel would be left in `ip_address` or `subnet_mask` (both come from
the same regex match, so they are absent together). -/
def scanSviChildren (cs : List SviChild) : String × Option (Nat × Nat) :=
  cs.foldl
    (fun acc c =>
      match c with
      | .descriptionLine d => (d, acc.2)
      | .ipAddressLine ip mask => (acc.1, some (ip, mask))
      | .ipAddressNoMatch => (acc.1, none)
      | .otherLine => acc)
    ("", none)

/-- The dictionary value built for one VLAN (source lines 108-113).
`subnet` is the `(network, prefix)` pair returned by `ip_network`;
`defaultGateway` models the key added later by `create_default_svi`. -/
structure SviRecord where
  name : String
  vlanId : String
  interfaceIp : Nat
  subnet : Nat × Nat
  defaultGateway : Option Nat := none
deriving DecidableEq, Repr

/-- Source lines 108-113: the record for a kept VLAN block. -/
def mkSviRecord (vid : String) (desc : String) (ip : Nat) (net : Nat × Nat) : SviRecord :=
  { name := if desc != "" then desc else "Vlan" ++ vid
    vlanId := vid
    interfaceIp := ip
    subnet := net
    defaultGateway := none }

/-- Processing of one VLAN block (source lines 87-122): the record is
stored only when the id is not yet a key and both ip and mask were
found; `ipaddress.ip_network` is called non-strictly and an invalid
address or mask is an uncaught `ValueError` (modelled as `.error`).  In
every other case the block is skipped and the dictionary is unchanged. -/
def parse_svi_step (st : Dict SviRecord) (b : VlanBlock) : Except String (Dict SviRecord) :=
  let (desc, ipm) := scanSviChildren b.children
  match ipm with
  | some (ip, mask) =>
    if dictHasKey st b.vlanId then .ok st
    else
      match ip_network ip mask false with
      | some net => .ok (st ++ [(b.vlanId, mkSviRecord b.vlanId desc ip net)])
      | none => .error "ValueError: invalid IPv4 address or netmask"
  | none => .ok st

/-- The block loop of `parse_svi_data`, started from an arbitrary
dictionary. -/
def parse_svi_from (st : Dict SviRecord) : List VlanBlock → Except String (Dict SviRecord)
  | [] => .ok st
  | b :: bs =>
    match parse_svi_step st b with
    | .ok st' => parse_svi_from st' bs
    | .error e => .error e

/-- `parse_svi_data` (source lines 61-124): fold the VLAN blocks into a
dictionary of SVI records, starting from the empty `svi_data = {}`. -/
def parse_svi_data (bs : List VlanBlock) : Except String (Dict SviRecord) :=
  parse_svi_from [] bs

/-! ## `parse_shut_intf` -/

/-- `parse_shut_intf` (source lines 126-145): every interface block that
has a `shutdown` child contributes its full interface name, in order.
An input entry is an interface block given as its extracted name
together with whether `find_objects_w_child` matched a `^\s+shutdown`
child on it. -/
def parse_shut_intf (blocks : List (String × Bool)) : List String :=
  (blocks.filter (fun p => p.2)).map (fun p => p.1)

/-! ## `parse_intf_config` -/

/-- A child line of a physical interface block.  Each field carries the
result of the corresponding `re_match_typed` call on that line (`none`
models the `""` default when the regex does not match); the source tests
every regex on every child, so the fields are independent. -/
structure IntfChild where
  desc : Option String := none
  portMode : Option String := none
  voiceVlan : Option String := none
  dataVlan : Option String := none
  trunkNative : Option String := none
  vlanAllowed : Option String := none
deriving DecidableEq, Repr

/-- An `interface ...` block of the running configuration, with the
fields the source extracts from the header line: the full name,
the stacking-unit digit of `^interface\s\S+?thernet+(\d)` and the port
digits of `^interface\s\S+?thernet\d.\d.(\d+)` (both `""` when the regex
finds no match, e.g. on `interface Vlan100`). -/
structure IntfEntry where
  intfName : String
  switchModule : String
  portNumber : String
  children : List IntfChild
deriving DecidableEq, Repr

/-- `re.sub("\d+|\\/", "", intf_name)`: drop every digit and slash. -/
def only_intf_name (s : String) : String :=
  String.mk (s.toList.filter (fun c => !(c.isDigit || c == '/')))

/-- Python `s.startswith(p)`. -/
def pyStartsWith (s p : String) : Bool :=
  p.data.isPrefixOf s.data

/-- The interface-configuration dictionary value.  `module` models the
`"module"` key recorded in multi-target mode (and deleted again by
`configure_meraki`); `enabled` models the key set just before the
update-port call. -/
structure IntfConfig where
  module : Option Nat := none
  portId : String
  name : Option String := none
  type : Option String := none
  voiceVlan : Option String := none
  vlan : Option String := none
  allowedVlans : Option String := none
  enabled : Option Bool := none
deriving DecidableEq, Repr

/-- One pass of the child loop (source lines 204-227): each regex that
matched overwrites its field; a trunk-native match overwrites the
`vlan` field after a data-vlan match, as in the source order. -/
def applyIntfChild (cfg : IntfConfig) (c : IntfChild) : IntfConfig :=
  let cfg := match c.desc with
    | some d => { cfg with name := some d }
    | none => cfg
  let cfg := match c.portMode with
    | some pm => { cfg with type := some pm }
    | none => cfg
  let cfg := match c.voiceVlan with
    | some v => { cfg with voiceVlan := some v }
    | none => cfg
  let cfg := match c.dataVlan with
    | some v => { cfg with vlan := some v }
    | none => cfg
  let cfg := match c.trunkNative with
    | some v => { cfg with vlan := some v }
    | none => cfg
  match c.vlanAllowed with
    | some v => { cfg with allowedVlans := some v }
    | none => cfg

/-- Build the record of one retained interface from its `module` and
`portId` values and its child lines. -/
def buildIntfConfig (module : Option Nat) (portId : String) (cs : List IntfChild) : IntfConfig :=
  cs.foldl applyIntfChild { module := module, portId := portId }

/-- Decimal value of a digit list, `none` on any non-digit. -/
def decimalValAux : List Char → Nat → Option Nat
  | [], acc => some acc
  | c :: cs, acc =>
    if c.isDigit then decimalValAux cs (acc * 10 + (c.toNat - 48)) else none

/-- Python `int(s)` on a regex capture: the captures at stake are digit
runs or `""`, so this is the decimal value of a non-empty digit string
and a `ValueError` otherwise (in particular on `int("")`). -/
def pyInt (s : String) : Except String Nat :=
  if s.data.isEmpty then
    .error ("ValueError: invalid literal for int() with base 10: " ++ s)
  else
    match decimalValAux s.data 0 with
    | some n => .ok n
    | none => .error ("ValueError: invalid literal for int() with base 10: " ++ s)

/-- Python `s - n` where `s` is a `str`: always a `TypeError`.  Source
line 195 computes `switch_module - 1` while `switch_module` still holds
the string returned by `re_match_typed` (only the comparisons on lines
189 and 193 convert it with `int(...)`, without rebinding it). -/
def pyStrSubNat (_s : String) (_n : Nat) : Except String Nat :=
  .error "TypeError: unsupported operand type(s) for -: str and int"

/-- Processing of one interface block (source lines 173-227).  The state
is `(module_counter, intf_configs)`.  Only blocks whose stripped name
starts with `"Giga"` and whose port digits are non-empty are retained.
With one target switch, a unit-1 port bumps `module_counter` and keeps
its raw number, while a unit-`N` port with `N > 1` evaluates
`port_number + module_counter * (switch_module - 1)` — whose subtraction
is applied to the *string* `switch_module`, a `TypeError`.  With several
target switches the unit digit is recorded under `module` and the raw
port number is kept. -/
def parse_intf_step (numSwitches : Nat) (st : Nat × Dict IntfConfig) (e : IntfEntry) :
    Except String (Nat × Dict IntfConfig) :=
  let (counter, cfgs) := st
  if pyStartsWith (only_intf_name e.intfName) "Giga" && e.portNumber != "" then
    match pyInt e.portNumber with
    | .error err => .error err
    | .ok p0 =>
      if numSwitches == 1 then
        match pyInt e.switchModule with
        | .error err => .error err
        | .ok sm =>
          if sm == 1 then
            .ok (counter + 1,
              dictSet cfgs e.intfName (buildIntfConfig none (toString p0) e.children))
          else if sm > 1 then
            match pyStrSubNat e.switchModule 1 with
            | .error err => .error err
            | .ok d =>
              .ok (counter,
                dictSet cfgs e.intfName
                  (buildIntfConfig none (toString (p0 + counter * d)) e.children))
          else
            .ok (counter,
              dictSet cfgs e.intfName (buildIntfConfig none (toString p0) e.children))
      else if numSwitches > 1 then
        match pyInt e.switchModule with
        | .error err => .error err
        | .ok sm =>
          .ok (counter,
            dictSet cfgs e.intfName (buildIntfConfig (some sm) (toString p0) e.children))
      else
        .ok (counter,
          dictSet cfgs e.intfName (buildIntfConfig none (toString p0) e.children))
  else .ok st

/-- The interface loop, from an arbitrary state. -/
def parse_intf_from (numSwitches : Nat) (st : Nat × Dict IntfConfig) :
    List IntfEntry → Except String (Nat × Dict IntfConfig)
  | [] => .ok st
  | e :: es =>
    match parse_intf_step numSwitches st e with
    | .ok st' => parse_intf_from numSwitches st' es
    | .error err => .error err

/-- `parse_intf_config` (source lines 147-233): fold the interface blocks
starting from `module_counter = 0` and `intf_configs = {}`. -/
def parse_intf_config (entries : List IntfEntry) (numSwitches : Nat) :
    Except String (Dict IntfConfig) :=
  (parse_intf_from numSwitches (0, []) entries).map (fun st => st.2)

/-! ## `configure_meraki` and its helpers -/

/-- One routed interface of a `getDeviceSwitchRoutingInterfaces`
response: it always carries a numeric `vlanId`; `defaultGateway` models
the presence of the `"defaultGateway"` key on interfaces that have one. -/
structure MerakiSvi where
  vlanId : Nat
  defaultGateway : Option Nat := none

/-- The dashboard, seen as the response each serial gets for
`getDeviceSwitchRoutingInterfaces`. -/
structure Env where
  existingSvis : String → List MerakiSvi

/-- The API calls `configure_meraki` can issue, in issue order. -/
inductive ApiCall where
  | getRoutingInterfaces (serial : String)
  | createRoutingInterface (serial : String) (payload : SviRecord)
  | updatePort (serial : String) (payload : IntfConfig)
deriving DecidableEq, Repr

/-- Python `needle in hay` on strings: substring containment. -/
def strContains (hay needle : String) : Bool :=
  (List.range (hay.data.length + 1)).any (fun i => needle.data.isPrefixOf (hay.data.drop i))

/-- `check_default_gateway` (source lines 235-245), exactly as called:
its argument is the list of *strings* `str(svi["vlanId"])`, so the
`"defaultGateway" in svi` test is Python substring containment on those
strings. -/
def check_default_gateway (meraki_svis : List String) : Bool :=
  meraki_svis.any (fun svi => strContains svi "defaultGateway")

/-- `create_default_svi` (source lines 247-267): when the gateway lies in
the record's subnet, the record gains the `defaultGateway` key, the
create call is issued for it, and its `vlanId` is returned; otherwise
`None` is returned and no call is issued. -/
def create_default_svi (vlanInfo : SviRecord) (gw : Nat) (serial : String) :
    Option (SviRecord × String × ApiCall) :=
  if addressInNetwork gw vlanInfo.subnet then
    let vi := { vlanInfo with defaultGateway := some gw }
    some (vi, vi.vlanId, ApiCall.createRoutingInterface serial vi)
  else none

/-- The inner loop over `svi_data.values()` for one serial (source lines
291-301): every record whose subnet contains the gateway is mutated and
created via `create_default_svi`, `default_svi` is overwritten with each
returned id; a `None` return (dead in practice, since the guard that was
just checked is re-checked inside `create_default_svi`) reports the
error and returns from `configure_meraki`, modelled by the final `Bool`.
Returns the updated record list, the final `default_svi`, the calls
issued, and whether the early return was taken. -/
def scanSvis (gw : Nat) (serial : String) (dsvi : String) :
    Dict SviRecord → Dict SviRecord × String × List ApiCall × Bool
  | [] => ([], dsvi, [], false)
  | (vid, r) :: rest =>
    if addressInNetwork gw r.subnet then
      match create_default_svi r gw serial with
      | some (r', tid, call) =>
        let res := scanSvis gw serial tid rest
        ((vid, r') :: res.1, res.2.1, call :: res.2.2.1, res.2.2.2)
      | none => ((vid, r) :: rest, dsvi, [], true)
    else
      let res := scanSvis gw serial dsvi rest
      ((vid, r) :: res.1, res.2.1, res.2.2.1, res.2.2.2)

/-- The running state of the per-serial gateway loop. -/
structure ScanState where
  svis : Dict SviRecord
  defaultSvi : String
  calls : List ApiCall
  earlyReturn : Bool

/-- One iteration of the serial loop (source lines 283-301): query the
device's routed interfaces, keep only their `vlanId` strings, and scan
the extracted SVIs only when `check_default_gateway` is false on those
strings.  After an early return nothing further runs. -/
def scanSerial (env : Env) (gw : Nat) (st : ScanState) (serial : String) : ScanState :=
  if st.earlyReturn then st
  else
    let calls := st.calls ++ [ApiCall.getRoutingInterfaces serial]
    let meraki_svis := (env.existingSvis serial).map (fun svi => toString svi.vlanId)
    if check_default_gateway meraki_svis then { st with calls := calls }
    else
      let res := scanSvis gw serial st.defaultSvi st.svis
      { svis := res.1, defaultSvi := res.2.1, calls := calls ++ res.2.2.1,
        earlyReturn := res.2.2.2 }

/-- The whole serial loop, from `default_svi = ""`. -/
def gatewayScan (env : Env) (gw : Nat) (serials : List String) (svis : Dict SviRecord) :
    ScanState :=
  serials.foldl (scanSerial env gw) ⟨svis, "", [], false⟩

/-- Source lines 303-309: when a default SVI was chosen it is deleted
from the dictionary; otherwise the fatal gateway error is *printed*
(second component `true`) — and, notably, control falls through. -/
def gwRemovePhase (svis : Dict SviRecord) (dsvi : String) :
    Except String (Dict SviRecord × Bool) :=
  if dsvi != "" then (pyDictDel svis dsvi).map (fun d => (d, false))
  else .ok (svis, true)

/-- The bulk SVI loop (source lines 311-326): for each remaining VLAN, in
dictionary order, one create call per serial. -/
def bulkSviCalls (serials : List String) (svis : Dict SviRecord) : List ApiCall :=
  svis.flatMap (fun p => serials.map (fun s => ApiCall.createRoutingInterface s p.2))

/-- Python `xs[i]` on a list: negative indices count from the end; an
index out of range on either side is an `IndexError` (`none`). -/
def pyListGet (xs : List α) (i : Int) : Option α :=
  if i < 0 then
    if (xs.length : Int) + i < 0 then none else xs.get? ((xs.length : Int) + i).toNat
  else xs.get? i.toNat

/-- The body of the interface loop (source lines 333-348) for one record:
set `enabled` from membership of the raw interface name in the shutdown
list, pop the `module` key (defaulting the switch number to 1 when it is
absent), and issue the update-port call against
`serials[switch_num - 1]` — an uncaught `IndexError` when that index is
out of range. -/
def applyIntfOne (serials shut : List String) (intfName : String) (cfg : IntfConfig) :
    Except String ApiCall :=
  let cfg := { cfg with enabled := some (!(shut.contains intfName)) }
  let (switchNum, cfg) :=
    match cfg.module with
    | some m => (m, { cfg with module := none })
    | none => (1, cfg)
  match pyListGet serials ((switchNum : Int) - 1) with
  | some s => .ok (ApiCall.updatePort s cfg)
  | none => .error "IndexError: list index out of range"

/-- The interface loop: calls issued so far and the crash, if any, that
aborted it. -/
def applyIntfPhase (serials shut : List String) :
    Dict IntfConfig → List ApiCall × Option String
  | [] => ([], none)
  | (n, c) :: rest =>
    match applyIntfOne serials shut n c with
    | .ok call =>
      let res := applyIntfPhase serials shut rest
      (call :: res.1, res.2)
    | .error err => ([], some err)

/-- The observable outcome of `configure_meraki`: the API calls issued in
order, whether the fatal "Default Gateway does not exist on SVI" error
was printed, and the uncaught exception (if any) that killed the run. -/
structure MerakiRun where
  calls : List ApiCall
  gwErrorReported : Bool
  crashed : Option String
deriving DecidableEq, Repr

/-- `configure_meraki` (source lines 269-350): the gateway scan over all
serials, the removal (or not) of the chosen default SVI, the bulk SVI
creation loop and the interface update loop.  Note that the
gateway-not-found branch of lines 306-308 only prints: execution falls
through to the bulk loops. -/
def configure_meraki (env : Env) (gw : Nat) (serials : List String)
    (svi_data : Dict SviRecord) (shut_interfaces : List String)
    (intf_configs : Dict IntfConfig) : MerakiRun :=
  let sc := gatewayScan env gw serials svi_data
  if sc.earlyReturn then
    { calls := sc.calls, gwErrorReported := true, crashed := none }
  else
    match gwRemovePhase sc.svis sc.defaultSvi with
    | .error err => { calls := sc.calls, gwErrorReported := false, crashed := some err }
    | .ok (svis2, gwErr) =>
      let bulk := bulkSviCalls serials svis2
      let res := applyIntfPhase serials shut_interfaces intf_configs
      { calls := sc.calls ++ bulk ++ res.1, gwErrorReported := gwErr, crashed := res.2 }

/-! ## Concrete fixtures for the claims -/

/-- An extracted SVI on `10.0.1.0/24` (address `10.0.1.5/24`). -/
def sviA : SviRecord :=
  { name := "Vlan10", vlanId := "10", interfaceIp := ipv4 10 0 1 5, subnet := (ipv4 10 0 1 0, 24) }

/-- An extracted SVI on `10.0.2.0/24` (address `10.0.2.5/24`). -/
def sviB : SviRecord :=
  { name := "Vlan20", vlanId := "20", interfaceIp := ipv4 10 0 2 5, subnet := (ipv4 10 0 2 0, 24) }

/-- A dashboard on which no device has any routed interface yet. -/
def envEmpty : Env := ⟨fun _ => []⟩

/-- A dashboard on which every device already has a routed interface for
VLAN 100 carrying a default gateway. -/
def envHasGw : Env := ⟨fun _ => [{ vlanId := 100, defaultGateway := some (ipv4 10 0 1 1) }]⟩

/-- C1: the configured gateway `192.168.1.1` is in no extracted subnet.
`configure_meraki` does report the fatal error (`gwErrorReported`), but
the `else` branch of source lines 306-308 has no `return`: the run falls
through and still issues the bulk create-routed-interface call for the
remaining SVI record and the update-port call for the interface-config
record, contradicting the claim that nothing further is applied. -/
theorem c1_gateway_in_no_subnet_still_issues_bulk_calls :
    configure_meraki envEmpty (ipv4 192 168 1 1) ["S1"] [("10", sviA)] []
        [("GigabitEthernet1/0/1", { portId := "1" })] =
      { calls := [ApiCall.getRoutingInterfaces "S1",
                  ApiCall.createRoutingInterface "S1" sviA,
                  ApiCall.updatePort "S1" { portId := "1", enabled := some true }],
        gwErrorReported := true,
        crashed := none } := by
  decide

/-- C2: in single-target-device mode, the very first downlink interface
on stacking unit 2 does not get logical port `raw + module_counter *
(N - 1)`: source line 195 evaluates `switch_module - 1` while
`switch_module` is still the string `"2"`, so `parse_intf_config`
raises `TypeError` instead of producing port 29. -/
theorem c2_unit2_port_remap_raises_type_error :
    parse_intf_config
        [⟨"GigabitEthernet1/0/1", "1", "1", []⟩, ⟨"GigabitEthernet2/0/5", "2", "5", []⟩] 1 =
      .error "TypeError: unsupported operand type(s) for -: str and int" := by
  rfl

/-- C3: the device's `getDeviceSwitchRoutingInterfaces` response contains
a routed interface that has a default gateway, yet `configure_meraki`
still issues the gateway-creating call for that device: the response is
reduced to the `vlanId` strings (here `["100"]`) before
`check_default_gateway` runs, so the `"defaultGateway" in svi` test is a
substring test on `"100"` and returns `false`. -/
theorem c3_existing_gateway_not_detected_scan_still_creates :
    (envHasGw.existingSvis "S1").any (fun svi => svi.defaultGateway.isSome) = true ∧
    check_default_gateway
        ((envHasGw.existingSvis "S1").map (fun svi => toString svi.vlanId)) = false ∧
    configure_meraki envHasGw (ipv4 10 0 2 1) ["S1"] [("20", sviB)] [] [] =
      { calls := [ApiCall.getRoutingInterfaces "S1",
                  ApiCall.createRoutingInterface "S1"
                    { sviB with defaultGateway := some (ipv4 10 0 2 1) }],
        gwErrorReported := false,
        crashed := none } := by
  refine ⟨by decide, by decide, by decide⟩

/-! ## C8: enabled flag vs the shutdown set -/

/-- C8: a successful update-port call built from a retained
interface-config record carries `enabled = false` exactly when the raw
interface name is in the shutdown list, and `enabled = true` otherwise
(source lines 333-338). -/
theorem c8_update_port_enabled_iff_shutdown
    (serials shut : List String) (intfName : String) (cfg : IntfConfig)
    (s : String) (cfg' : IntfConfig)
    (h : applyIntfOne serials shut intfName cfg = .ok (.updatePort s cfg')) :
    (intfName ∈ shut → cfg'.enabled = some false) ∧
    (intfName ∉ shut → cfg'.enabled = some true) := by
  have henabled : cfg'.enabled = some (!(shut.contains intfName)) := by
    obtain ⟨mo, pid, nm, ty, vv, vl, av, en⟩ := cfg
    cases mo with
    | none =>
      simp only [applyIntfOne] at h
      cases hpg : pyListGet serials (((1 : Nat) : Int) - 1) with
      | none => rw [hpg] at h; cases h
      | some s2 =>
        rw [hpg] at h
        simp only [Except.ok.injEq, ApiCall.updatePort.injEq] at h
        rw [← h.2]
    | some m =>
      simp only [applyIntfOne] at h
      cases hpg : pyListGet serials ((m : Int) - 1) with
      | none => rw [hpg] at h; cases h
      | some s2 =>
        rw [hpg] at h
        simp only [Except.ok.injEq, ApiCall.updatePort.injEq] at h
        rw [← h.2]
  refine ⟨fun hmem => ?_, fun hmem => ?_⟩ <;>
    simp [henabled, List.contains, List.elem_eq_mem, hmem]

/-- Witness for C8 at a concrete input: the interface name is in the
shutdown list and the call indeed carries `enabled = some false`. -/
theorem c8_update_port_enabled_iff_shutdown_witness :
    ("GigabitEthernet1/0/1" ∈ ["GigabitEthernet1/0/1"] →
      (({ portId := "1", enabled := some false } : IntfConfig)).enabled = some false) ∧
    ("GigabitEthernet1/0/1" ∉ ["GigabitEthernet1/0/1"] →
      (({ portId := "1", enabled := some false } : IntfConfig)).enabled = some true) :=
  c8_update_port_enabled_iff_shutdown ["S1"] ["GigabitEthernet1/0/1"]
    "GigabitEthernet1/0/1" { portId := "1" } "S1" { portId := "1", enabled := some false }
    rfl

/-! ## C10: device lookup by `serials[switch_num - 1]` -/

/-- `xs[m - 1]` for a natural `m`, as Python evaluates it: for `m ≥ 1`
the plain index `m - 1`; for `m = 0` the negative index `-1`, i.e. the
last element. -/
theorem pyListGet_coe_sub_one (xs : List α) (m : Nat) :
    pyListGet xs ((m : Int) - 1) =
      xs.get? (if m = 0 then xs.length - 1 else m - 1) := by
  unfold pyListGet
  split_ifs with h1 h2 h3 h4 h5 <;>
    first
      | (rw [eq_comm, List.get?_eq_none]; omega)
      | (congr 1; omega)

/-- C10 counterexample: the claim asserts the update-port step is
well-defined *only* when every recorded stacking-unit number lies in
`1..len(serials)`.  A recorded module number 0 (an interface such as
`GigabitEthernet0/0/7`) is outside that range, yet the lookup
`serials[0 - 1]` succeeds through Python negative indexing and the call
is issued against the *last* serial. -/
theorem c10_counterexample_module_zero_succeeds :
    applyIntfOne ["A", "B"] [] "GigabitEthernet0/0/7" { portId := "7", module := some 0 } =
      .ok (.updatePort "B" { portId := "7", enabled := some true }) ∧ ¬ (1 ≤ 0) :=
  ⟨rfl, by omega⟩

/-- C10 (amended): the lookup `serials[switch_num - 1]` has no bounds
check; the update-port call for a record with module `m` is well-defined
exactly when the serial list is non-empty and `m ≤ len(serials)` (with
`m = 0` resolving, via negative indexing, to the last device), and for a
module number exceeding the length of the serial list the lookup raises
an uncaught `IndexError` instead of being rejected or defaulted. -/
theorem c10_module_indexing_no_bounds_check
    (serials shut : List String) (intfName : String) (cfg : IntfConfig) (m : Nat)
    (hm : cfg.module = some m) :
    ((∃ call, applyIntfOne serials shut intfName cfg = .ok call) ↔
      (serials ≠ [] ∧ m ≤ serials.length)) ∧
    (serials.length < m →
      applyIntfOne serials shut intfName cfg = .error "IndexError: list index out of range") := by
  obtain ⟨mo, pid, nm, ty, vv, vl, av, en⟩ := cfg
  simp only at hm
  subst hm
  simp only [applyIntfOne]
  rw [pyListGet_coe_sub_one]
  have hlen_iff : serials.length = 0 ↔ serials = [] := List.length_eq_zero
  refine ⟨⟨?_, ?_⟩, ?_⟩
  · rintro ⟨call, hcall⟩
    cases hg : serials.get? (if m = 0 then serials.length - 1 else m - 1) with
    | none => rw [hg] at hcall; simp at hcall
    | some s =>
      obtain ⟨hlt, -⟩ := List.get?_eq_some.mp hg
      have hlen0 : serials.length ≠ 0 := by
        by_cases hm0 : m = 0
        · rw [if_pos hm0] at hlt; omega
        · rw [if_neg hm0] at hlt; omega
      refine ⟨fun hnil => hlen0 (hlen_iff.mpr hnil), ?_⟩
      by_cases hm0 : m = 0
      · omega
      · rw [if_neg hm0] at hlt; omega
  · rintro ⟨hne, hle⟩
    have hlen0 : serials.length ≠ 0 := fun h => hne (hlen_iff.mp h)
    have hlt : (if m = 0 then serials.length - 1 else m - 1) < serials.length := by
      by_cases hm0 : m = 0
      · rw [if_pos hm0]; omega
      · rw [if_neg hm0]; omega
    rw [List.get?_eq_get hlt]
    exact ⟨_, rfl⟩
  · intro hltlen
    have hg : serials.get? (if m = 0 then serials.length - 1 else m - 1) = none := by
      rw [List.get?_eq_none]
      by_cases hm0 : m = 0
      · rw [if_pos hm0]; omega
      · rw [if_neg hm0]; omega
    rw [hg]

/-- Witness for C10 (amended) at a concrete input: with two serials and
module 3, the call is not well-defined and the lookup raises. -/
theorem c10_module_indexing_no_bounds_check_witness :
    ((∃ call, applyIntfOne ["A", "B"] [] "GigabitEthernet3/0/7"
        { portId := "7", module := some 3 } = .ok call) ↔
      ((["A", "B"] : List String) ≠ [] ∧ 3 ≤ (["A", "B"] : List String).length)) ∧
    ((["A", "B"] : List String).length < 3 →
      applyIntfOne ["A", "B"] [] "GigabitEthernet3/0/7" { portId := "7", module := some 3 } =
        .error "IndexError: list index out of range") :=
  c10_module_indexing_no_bounds_check ["A", "B"] [] "GigabitEthernet3/0/7"
    { portId := "7", module := some 3 } 3 rfl

/-! ## C4: multi-target-device mode -/

theorem applyIntfChild_preserves (cfg : IntfConfig) (c : IntfChild) :
    (applyIntfChild cfg c).module = cfg.module ∧ (applyIntfChild cfg c).portId = cfg.portId := by
  unfold applyIntfChild
  rcases c with ⟨d, pm, vv, dv, tn, va⟩
  dsimp only
  cases d <;> cases pm <;> cases vv <;> cases dv <;> cases tn <;> cases va <;> exact ⟨rfl, rfl⟩

theorem foldl_applyIntfChild_preserves (cs : List IntfChild) (cfg : IntfConfig) :
    (cs.foldl applyIntfChild cfg).module = cfg.module ∧
    (cs.foldl applyIntfChild cfg).portId = cfg.portId := by
  induction cs generalizing cfg with
  | nil => exact ⟨rfl, rfl⟩
  | cons c cs ih =>
    rw [List.foldl_cons]
    have h1 := applyIntfChild_preserves cfg c
    have h2 := ih (applyIntfChild cfg c)
    exact ⟨h2.1.trans h1.1, h2.2.trans h1.2⟩

/-- The child loop never touches the `module` or `portId` fields. -/
theorem buildIntfConfig_module_portId (mo : Option Nat) (pid : String) (cs : List IntfChild) :
    (buildIntfConfig mo pid cs).module = mo ∧ (buildIntfConfig mo pid cs).portId = pid :=
  foldl_applyIntfChild_preserves cs _

/-- C4: with more than one target device, a retained downlink interface
on stacking unit `m` (raw port digits parsing to `p`) is stored with
`module = m` and the raw `portId = str(p)`; `configure_meraki`'s
update-port step then resolves that record to the serial at 0-based
index `m - 1` of the serial list, the payload keeping the raw port id
(and the `module` key removed before the call). -/
theorem c4_multi_mode_module_selects_device_raw_port
    (ns : Nat) (hns : 1 < ns) (counter : Nat) (cfgs : Dict IntfConfig) (e : IntfEntry)
    (m p : Nat)
    (hgiga : pyStartsWith (only_intf_name e.intfName) "Giga" = true)
    (hm : pyInt e.switchModule = .ok m) (hp : pyInt e.portNumber = .ok p)
    (serials shut : List String) (hlen : serials.length = ns)
    (hm1 : 1 ≤ m) (hmlen : m ≤ serials.length) :
    ∃ cfg, parse_intf_step ns (counter, cfgs) e = .ok (counter, dictSet cfgs e.intfName cfg) ∧
      cfg.module = some m ∧ cfg.portId = toString p ∧
      ∃ s cfg', serials.get? (m - 1) = some s ∧
        applyIntfOne serials shut e.intfName cfg = .ok (.updatePort s cfg') ∧
        cfg'.portId = toString p ∧ cfg'.module = none := by
  have hpe : e.portNumber ≠ "" := by
    intro h0
    have h1 : pyInt "" =
        (.error ("ValueError: invalid literal for int() with base 10: " ++ "") :
          Except String Nat) := rfl
    rw [h0, h1] at hp
    cases hp
  have hcond : (pyStartsWith (only_intf_name e.intfName) "Giga" && e.portNumber != "") = true := by
    rw [hgiga, Bool.true_and, bne_iff_ne]
    exact hpe
  have hns1 : ¬ ((ns == 1) = true) := by
    simp only [beq_iff_eq]
    omega
  have hmod := (buildIntfConfig_module_portId (some m) (toString p) e.children).1
  have hpid := (buildIntfConfig_module_portId (some m) (toString p) e.children).2
  refine ⟨buildIntfConfig (some m) (toString p) e.children, ?_, hmod, hpid, ?_⟩
  · unfold parse_intf_step
    dsimp only
    rw [if_pos hcond, hp]
    dsimp only
    rw [if_neg hns1, if_pos hns, hm]
  · have hlt : m - 1 < serials.length := by omega
    refine ⟨serials.get ⟨m - 1, hlt⟩,
      { buildIntfConfig (some m) (toString p) e.children with
          enabled := some (!(shut.contains e.intfName)), module := none },
      List.get?_eq_get hlt, ?_, hpid, rfl⟩
    unfold applyIntfOne
    dsimp only
    rw [hmod]
    dsimp only
    rw [pyListGet_coe_sub_one, if_neg (by omega), List.get?_eq_get hlt]


/-- Witness for C4: stacking unit 2, raw port 7, two target serials —
the record carries `module = 2`, `portId = "7"`, and the update-port
call goes to the serial at index 1 with portId kept as `"7"`. -/
theorem c4_multi_mode_module_selects_device_raw_port_witness :
    ∃ cfg, parse_intf_step 2 (0, ([] : Dict IntfConfig))
        ⟨"GigabitEthernet2/0/7", "2", "7", []⟩ =
          .ok (0, dictSet [] "GigabitEthernet2/0/7" cfg) ∧
      cfg.module = some 2 ∧ cfg.portId = toString 7 ∧
      ∃ s cfg', (["A", "B"] : List String).get? (2 - 1) = some s ∧
        applyIntfOne ["A", "B"] [] "GigabitEthernet2/0/7" cfg = .ok (.updatePort s cfg') ∧
        cfg'.portId = toString 7 ∧ cfg'.module = none :=
  c4_multi_mode_module_selects_device_raw_port 2 (by omega) 0 []
    ⟨"GigabitEthernet2/0/7", "2", "7", []⟩ 2 7 rfl rfl rfl ["A", "B"] [] rfl
    (by omega) (by decide)

/-! ## Dictionary lemmas for the SVI extraction -/

theorem dictGet?_none_iff_hasKey_false (st : Dict α) (k : String) :
    dictGet? st k = none ↔ dictHasKey st k = false := by
  unfold dictGet? dictHasKey
  rw [Option.map_eq_none', List.find?_eq_none, List.any_eq_false]

theorem dictGet?_append_left {st : Dict α} {k : String} {r : α}
    (h : dictGet? st k = some r) (l : Dict α) : dictGet? (st ++ l) k = some r := by
  unfold dictGet? at h ⊢
  rw [List.find?_append]
  cases hf : st.find? (fun p => p.1 == k) with
  | none => rw [hf] at h; cases h
  | some pr =>
    rw [hf] at h
    exact h

theorem dictGet?_append_single {st : Dict α} {k vid : String} {v r : α}
    (h : dictGet? (st ++ [(vid, v)]) k = some r) :
    dictGet? st k = some r ∨ (vid = k ∧ r = v) := by
  unfold dictGet? at h ⊢
  rw [List.find?_append] at h
  cases hf : st.find? (fun p => p.1 == k) with
  | some pr =>
    rw [hf] at h
    exact .inl h
  | none =>
    rw [hf] at h
    by_cases hbe : vid = k
    · subst hbe
      rw [List.find?_cons_of_pos _ (by simp)] at h
      cases h
      exact .inr ⟨rfl, rfl⟩
    · rw [List.find?_cons_of_neg _ (by simpa using hbe)] at h
      cases h

theorem dictGet?_append_single_self {st : Dict α} {vid : String} {v : α}
    (h : dictGet? st vid = none) : dictGet? (st ++ [(vid, v)]) vid = some v := by
  unfold dictGet? at h ⊢
  rw [List.find?_append]
  cases hf : st.find? (fun p => p.1 == vid) with
  | some pr => rw [hf] at h; cases h
  | none =>
    rw [List.find?_cons_of_pos _ (by simp)]
    rfl

/-! ## Structure of the `parse_svi_data` fold -/

theorem parse_svi_from_append (l1 l2 : List VlanBlock) (st : Dict SviRecord) :
    parse_svi_from st (l1 ++ l2) =
      match parse_svi_from st l1 with
      | .ok st' => parse_svi_from st' l2
      | .error e => .error e := by
  induction l1 generalizing st with
  | nil => rfl
  | cons b bs ih =>
    rw [List.cons_append]
    simp only [parse_svi_from]
    cases parse_svi_step st b with
    | ok st' => exact ih st'
    | error e => rfl

theorem parse_svi_step_preserves_lookup {st : Dict SviRecord} {b : VlanBlock}
    {st' : Dict SviRecord} (h : parse_svi_step st b = .ok st') {k : String} {r : SviRecord}
    (hk : dictGet? st k = some r) : dictGet? st' k = some r := by
  unfold parse_svi_step at h
  rcases hsc : scanSviChildren b.children with ⟨desc, ipm⟩
  rw [hsc] at h
  cases ipm with
  | none => cases h; exact hk
  | some pm =>
    rcases pm with ⟨ip, mask⟩
    dsimp only at h
    by_cases hkey : dictHasKey st b.vlanId
    · rw [if_pos hkey] at h
      cases h
      exact hk
    · rw [if_neg hkey] at h
      cases hnet : ip_network ip mask false with
      | none => rw [hnet] at h; cases h
      | some net =>
        rw [hnet] at h
        cases h
        exact dictGet?_append_left hk _

theorem parse_svi_from_preserves_lookup {bs : List VlanBlock} {st m : Dict SviRecord}
    (h : parse_svi_from st bs = .ok m) {k : String} {r : SviRecord}
    (hk : dictGet? st k = some r) : dictGet? m k = some r := by
  induction bs generalizing st with
  | nil => cases h; exact hk
  | cons b bs ih =>
    simp only [parse_svi_from] at h
    cases hstep : parse_svi_step st b with
    | error e => rw [hstep] at h; cases h
    | ok st' =>
      rw [hstep] at h
      exact ih h (parse_svi_step_preserves_lookup hstep hk)

theorem parse_svi_step_lookup_source {st : Dict SviRecord} {b : VlanBlock}
    {st' : Dict SviRecord} (h : parse_svi_step st b = .ok st') {k : String} {r : SviRecord}
    (hk : dictGet? st' k = some r) :
    dictGet? st k = some r ∨
      (b.vlanId = k ∧
        ∃ desc ip mask net, scanSviChildren b.children = (desc, some (ip, mask)) ∧
          ip_network ip mask false = some net ∧ r = mkSviRecord k desc ip net) := by
  unfold parse_svi_step at h
  rcases hsc : scanSviChildren b.children with ⟨desc, ipm⟩
  rw [hsc] at h
  cases ipm with
  | none => cases h; exact .inl hk
  | some pm =>
    rcases pm with ⟨ip, mask⟩
    dsimp only at h
    by_cases hkey : dictHasKey st b.vlanId
    · rw [if_pos hkey] at h
      cases h
      exact .inl hk
    · rw [if_neg hkey] at h
      cases hnet : ip_network ip mask false with
      | none => rw [hnet] at h; cases h
      | some net =>
        rw [hnet] at h
        cases h
        rcases dictGet?_append_single hk with hleft | ⟨hvid, hr⟩
        · exact .inl hleft
        · exact .inr ⟨hvid, desc, ip, mask, net, rfl, hnet, by rw [hr, hvid]⟩

theorem parse_svi_from_lookup_source {bs : List VlanBlock} {st m : Dict SviRecord}
    (h : parse_svi_from st bs = .ok m) {k : String} {r : SviRecord}
    (hk : dictGet? m k = some r) :
    dictGet? st k = some r ∨
      ∃ b ∈ bs, b.vlanId = k ∧
        ∃ desc ip mask net, scanSviChildren b.children = (desc, some (ip, mask)) ∧
          ip_network ip mask false = some net ∧ r = mkSviRecord k desc ip net := by
  induction bs generalizing st with
  | nil => cases h; exact .inl hk
  | cons b bs ih =>
    simp only [parse_svi_from] at h
    cases hstep : parse_svi_step st b with
    | error e => rw [hstep] at h; cases h
    | ok st' =>
      rw [hstep] at h
      rcases ih h with hst' | ⟨b', hb', rest⟩
      · rcases parse_svi_step_lookup_source hstep hst' with hst | ⟨hvid, rest⟩
        · exact .inl hst
        · exact .inr ⟨b, List.mem_cons_self b bs, hvid, rest⟩
      · exact .inr ⟨b', List.mem_cons_of_mem b hb', rest⟩

/-! ## C5, C6, C7: the SVI extraction claims -/

/-- C5: every record in the dictionary produced by `parse_svi_data` comes
from a block whose child scan found both an IP address and a mask, keeps
that address, and stores as `subnet` the standard CIDR network of
(address, mask) with host bits cleared — the non-strict network, stated
through `specCidrNonStrict`. -/
theorem c5_record_subnet_is_nonstrict_cidr {bs : List VlanBlock} {m : Dict SviRecord}
    (h : parse_svi_data bs = .ok m) {k : String} {r : SviRecord}
    (hk : dictGet? m k = some r) :
    ∃ b ∈ bs, b.vlanId = k ∧
      ∃ desc ip mask, scanSviChildren b.children = (desc, some (ip, mask)) ∧
        r.interfaceIp = ip ∧ specCidrNonStrict ip mask = some r.subnet := by
  unfold parse_svi_data at h
  rcases parse_svi_from_lookup_source h hk with h0 | ⟨b, hb, hvid, desc, ip, mask, net, hscan, hnet, hr⟩
  · simp [dictGet?] at h0
  · refine ⟨b, hb, hvid, desc, ip, mask, hscan, ?_, ?_⟩
    · rw [hr]
      rfl
    · rw [← ip_network_nonStrict_eq_spec, hr]
      exact hnet

/-- Witness for C5: a block with address `10.0.1.5` (host bits set) and
mask `255.255.255.0` — the stored subnet is `10.0.1.0/24`. -/
theorem c5_record_subnet_is_nonstrict_cidr_witness :
    ∃ b ∈ [(⟨"10", [.ipAddressLine (ipv4 10 0 1 5) (ipv4 255 255 255 0)]⟩ : VlanBlock)],
      b.vlanId = "10" ∧
      ∃ desc ip mask, scanSviChildren b.children = (desc, some (ip, mask)) ∧
        ({ name := "Vlan10", vlanId := "10", interfaceIp := ipv4 10 0 1 5,
           subnet := (ipv4 10 0 1 0, 24) } : SviRecord).interfaceIp = ip ∧
        specCidrNonStrict ip mask =
          some ({ name := "Vlan10", vlanId := "10", interfaceIp := ipv4 10 0 1 5,
                  subnet := (ipv4 10 0 1 0, 24) } : SviRecord).subnet :=
  @c5_record_subnet_is_nonstrict_cidr
    [⟨"10", [.ipAddressLine (ipv4 10 0 1 5) (ipv4 255 255 255 0)]⟩]
    [("10", { name := "Vlan10", vlanId := "10", interfaceIp := ipv4 10 0 1 5,
              subnet := (ipv4 10 0 1 0, 24) })]
    rfl "10"
    { name := "Vlan10", vlanId := "10", interfaceIp := ipv4 10 0 1 5,
      subnet := (ipv4 10 0 1 0, 24) }
    rfl

/-- C6: a VLAN block whose child scan is missing the IP address or the
subnet mask contributes nothing: the extraction result equals the result
on the remaining blocks, and if no other block carries that VLAN ID the
output has no record under it. -/
theorem c6_missing_fields_block_skipped (l1 l2 : List VlanBlock) (b : VlanBlock)
    (hmiss : (scanSviChildren b.children).2 = none) :
    parse_svi_data (l1 ++ b :: l2) = parse_svi_data (l1 ++ l2) ∧
    (∀ m, parse_svi_data (l1 ++ b :: l2) = .ok m →
      (∀ b' ∈ l1 ++ l2, b'.vlanId ≠ b.vlanId) → dictGet? m b.vlanId = none) := by
  have hskip : ∀ st, parse_svi_step st b = .ok st := by
    intro st
    unfold parse_svi_step
    rcases hsc : scanSviChildren b.children with ⟨desc, ipm⟩
    rw [hsc] at hmiss
    dsimp only at hmiss
    subst hmiss
    rfl
  have hEq : parse_svi_data (l1 ++ b :: l2) = parse_svi_data (l1 ++ l2) := by
    unfold parse_svi_data
    rw [parse_svi_from_append, parse_svi_from_append]
    cases hl1 : parse_svi_from [] l1 with
    | error e => rfl
    | ok st1 =>
      simp only [parse_svi_from]
      rw [hskip st1]
  refine ⟨hEq, fun m hm hfresh => ?_⟩
  rw [hEq] at hm
  unfold parse_svi_data at hm
  cases hg : dictGet? m b.vlanId with
  | none => rfl
  | some r =>
    exfalso
    rcases parse_svi_from_lookup_source hm hg with h0 | ⟨b', hb', hvid, -⟩
    · simp [dictGet?] at h0
    · exact hfresh b' hb' hvid

/-- Witness for C6: a block for VLAN 10 with no ip-address child is
skipped; the result is the same as for the remaining block alone and
holds no record for "10". -/
theorem c6_missing_fields_block_skipped_witness :
    (parse_svi_data ([] ++ (⟨"10", [.otherLine]⟩ : VlanBlock) ::
        [⟨"20", [.ipAddressLine (ipv4 10 0 2 5) (ipv4 255 255 255 0)]⟩]) =
      parse_svi_data ([] ++ [⟨"20", [.ipAddressLine (ipv4 10 0 2 5) (ipv4 255 255 255 0)]⟩])) ∧
    (∀ m, parse_svi_data ([] ++ (⟨"10", [.otherLine]⟩ : VlanBlock) ::
        [⟨"20", [.ipAddressLine (ipv4 10 0 2 5) (ipv4 255 255 255 0)]⟩]) = .ok m →
      (∀ b' ∈ ([] ++ [(⟨"20", [.ipAddressLine (ipv4 10 0 2 5) (ipv4 255 255 255 0)]⟩ : VlanBlock)]),
        b'.vlanId ≠ (⟨"10", [.otherLine]⟩ : VlanBlock).vlanId) →
      dictGet? m (⟨"10", [.otherLine]⟩ : VlanBlock).vlanId = none) :=
  c6_missing_fields_block_skipped []
    [⟨"20", [.ipAddressLine (ipv4 10 0 2 5) (ipv4 255 255 255 0)]⟩]
    ⟨"10", [.otherLine]⟩ rfl

/-- C7: the record retained under a VLAN ID is the one built from the
first block with that ID whose scan found ip and mask; no later block
with the same ID (whatever `l2` holds) overwrites or merges into it. -/
theorem c7_first_valid_block_wins (l1 l2 : List VlanBlock) (b : VlanBlock)
    (desc : String) (ip mask : Nat)
    (hb : scanSviChildren b.children = (desc, some (ip, mask)))
    (hfirst : ∀ b' ∈ l1, b'.vlanId = b.vlanId → (scanSviChildren b'.children).2 = none)
    (m : Dict SviRecord) (hok : parse_svi_data (l1 ++ b :: l2) = .ok m) :
    ∃ net, ip_network ip mask false = some net ∧
      dictGet? m b.vlanId = some (mkSviRecord b.vlanId desc ip net) := by
  unfold parse_svi_data at hok
  rw [parse_svi_from_append] at hok
  cases hl1 : parse_svi_from [] l1 with
  | error e => rw [hl1] at hok; cases hok
  | ok st1 =>
    rw [hl1] at hok
    have hnone : dictGet? st1 b.vlanId = none := by
      cases hg : dictGet? st1 b.vlanId with
      | none => rfl
      | some r =>
        exfalso
        rcases parse_svi_from_lookup_source hl1 hg with h0 | ⟨b', hb', hvid, desc', ip', mask', net', hscan', -⟩
        · simp [dictGet?] at h0
        · have := hfirst b' hb' hvid
          rw [hscan'] at this
          cases this
    have hkey : dictHasKey st1 b.vlanId = false :=
      (dictGet?_none_iff_hasKey_false st1 b.vlanId).mp hnone
    simp only [parse_svi_from] at hok
    cases hnet : ip_network ip mask false with
    | none =>
      exfalso
      have hstep : parse_svi_step st1 b =
          .error "ValueError: invalid IPv4 address or netmask" := by
        unfold parse_svi_step
        rw [hb]
        dsimp only
        rw [if_neg (by rw [hkey]; exact Bool.false_ne_true), hnet]
      rw [hstep] at hok
      cases hok
    | some net =>
      have hstep : parse_svi_step st1 b =
          .ok (st1 ++ [(b.vlanId, mkSviRecord b.vlanId desc ip net)]) := by
        unfold parse_svi_step
        rw [hb]
        dsimp only
        rw [if_neg (by rw [hkey]; exact Bool.false_ne_true), hnet]
      rw [hstep] at hok
      exact ⟨net, rfl,
        parse_svi_from_preserves_lookup hok (dictGet?_append_single_self hnone)⟩

/-- Witness for C7: two otherwise-valid blocks for VLAN 10; the retained
record is the one built from the first (`10.0.1.5/24`), not from the
duplicate (`10.0.1.9/24`). -/
theorem c7_first_valid_block_wins_witness :
    ∃ net, ip_network (ipv4 10 0 1 5) (ipv4 255 255 255 0) false = some net ∧
      dictGet? [("10", { name := "Vlan10", vlanId := "10", interfaceIp := ipv4 10 0 1 5,
                         subnet := (ipv4 10 0 1 0, 24) })]
          (⟨"10", [.ipAddressLine (ipv4 10 0 1 5) (ipv4 255 255 255 0)]⟩ : VlanBlock).vlanId =
        some (mkSviRecord
          (⟨"10", [.ipAddressLine (ipv4 10 0 1 5) (ipv4 255 255 255 0)]⟩ : VlanBlock).vlanId
          "" (ipv4 10 0 1 5) net) :=
  c7_first_valid_block_wins []
    [⟨"10", [.descriptionLine "dup", .ipAddressLine (ipv4 10 0 1 9) (ipv4 255 255 255 0)]⟩]
    ⟨"10", [.ipAddressLine (ipv4 10 0 1 5) (ipv4 255 255 255 0)]⟩
    "" (ipv4 10 0 1 5) (ipv4 255 255 255 0) rfl
    (fun b' hb' => absurd hb' (List.not_mem_nil b'))
    [("10", { name := "Vlan10", vlanId := "10", interfaceIp := ipv4 10 0 1 5,
              subnet := (ipv4 10 0 1 0, 24) })]
    rfl

/-! ## C9: the chosen default SVI is removed before the bulk step -/

theorem create_default_svi_pos {r : SviRecord} {gw : Nat} {serial : String}
    (h : addressInNetwork gw r.subnet = true) :
    create_default_svi r gw serial =
      some ({ r with defaultGateway := some gw }, r.vlanId,
        ApiCall.createRoutingInterface serial { r with defaultGateway := some gw }) := by
  unfold create_default_svi
  rw [if_pos h]

theorem scanSvis_cons_pos {gw : Nat} {serial dsvi vid : String} {r : SviRecord}
    {rest : Dict SviRecord} (h : addressInNetwork gw r.subnet = true) :
    scanSvis gw serial dsvi ((vid, r) :: rest) =
      ((vid, { r with defaultGateway := some gw }) ::
          (scanSvis gw serial r.vlanId rest).1,
        (scanSvis gw serial r.vlanId rest).2.1,
        ApiCall.createRoutingInterface serial { r with defaultGateway := some gw } ::
          (scanSvis gw serial r.vlanId rest).2.2.1,
        (scanSvis gw serial r.vlanId rest).2.2.2) := by
  simp only [scanSvis]
  rw [if_pos h, create_default_svi_pos h]

theorem scanSvis_cons_neg {gw : Nat} {serial dsvi vid : String} {r : SviRecord}
    {rest : Dict SviRecord} (h : ¬ (addressInNetwork gw r.subnet = true)) :
    scanSvis gw serial dsvi ((vid, r) :: rest) =
      ((vid, r) :: (scanSvis gw serial dsvi rest).1,
        (scanSvis gw serial dsvi rest).2.1,
        (scanSvis gw serial dsvi rest).2.2.1,
        (scanSvis gw serial dsvi rest).2.2.2) := by
  simp only [scanSvis]
  rw [if_neg h]

/-- The per-serial scan only updates record values in place (keeping key
and `vlanId`), and the resulting `default_svi` is either the incoming
one or the `vlanId` of one of the scanned records. -/
theorem scanSvis_inv (gw : Nat) (serial : String) :
    ∀ (l : Dict SviRecord) (dsvi : String), (∀ p ∈ l, p.2.vlanId = p.1) →
      (∀ p' ∈ (scanSvis gw serial dsvi l).1, p'.2.vlanId = p'.1) ∧
      (scanSvis gw serial dsvi l).1.map Prod.fst = l.map Prod.fst ∧
      ((scanSvis gw serial dsvi l).2.1 = dsvi ∨
        (scanSvis gw serial dsvi l).2.1 ∈ l.map Prod.fst) := by
  intro l
  induction l with
  | nil =>
    intro dsvi _
    exact ⟨fun p' hp' => absurd hp' (List.not_mem_nil p'), rfl, .inl rfl⟩
  | cons hd rest ih =>
    rcases hd with ⟨vid, r⟩
    intro dsvi hkv
    have hkvhd : r.vlanId = vid := hkv (vid, r) (List.mem_cons_self _ _)
    have hkvrest : ∀ p ∈ rest, p.2.vlanId = p.1 :=
      fun p hp => hkv p (List.mem_cons_of_mem _ hp)
    by_cases hin : addressInNetwork gw r.subnet = true
    · rw [scanSvis_cons_pos hin]
      obtain ⟨ih1, ih2, ih3⟩ := ih r.vlanId hkvrest
      refine ⟨?_, ?_, ?_⟩
      · intro p' hp'
        rcases List.mem_cons.mp hp' with heq | hmem
        · rw [heq]
          exact hkvhd
        · exact ih1 p' hmem
      · simp only [List.map_cons]
        rw [ih2]
      · right
        rcases ih3 with h | h
        · rw [h, hkvhd]
          exact List.mem_cons_self _ _
        · exact List.mem_cons_of_mem _ h
    · rw [scanSvis_cons_neg hin]
      obtain ⟨ih1, ih2, ih3⟩ := ih dsvi hkvrest
      refine ⟨?_, ?_, ?_⟩
      · intro p' hp'
        rcases List.mem_cons.mp hp' with heq | hmem
        · rw [heq]
          exact hkvhd
        · exact ih1 p' hmem
      · simp only [List.map_cons]
        rw [ih2]
      · rcases ih3 with h | h
        · exact .inl h
        · exact .inr (List.mem_cons_of_mem _ h)

/-- The invariant carried through the serial loop: keys unchanged,
`vlanId` equal to the key, and `default_svi` either still unset or one
of the keys. -/
def ScanInv (keys0 : List String) (st : ScanState) : Prop :=
  (∀ p ∈ st.svis, p.2.vlanId = p.1) ∧
  st.svis.map Prod.fst = keys0 ∧
  (st.defaultSvi = "" ∨ st.defaultSvi ∈ keys0)

theorem scanSerial_inv (env : Env) (gw : Nat) (serial : String) (keys0 : List String)
    (st : ScanState) (h : ScanInv keys0 st) :
    ScanInv keys0 (scanSerial env gw st serial) := by
  unfold scanSerial
  by_cases he : st.earlyReturn = true
  · rw [if_pos he]
    exact h
  · rw [if_neg he]
    by_cases hc : check_default_gateway
        ((env.existingSvis serial).map (fun svi => toString svi.vlanId)) = true
    · rw [if_pos hc]
      exact h
    · rw [if_neg hc]
      obtain ⟨hkv, hkeys, hdsvi⟩ := h
      obtain ⟨h1, h2, h3⟩ := scanSvis_inv gw serial st.svis st.defaultSvi hkv
      refine ⟨h1, h2.trans hkeys, ?_⟩
      show (scanSvis gw serial st.defaultSvi st.svis).2.1 = "" ∨
        (scanSvis gw serial st.defaultSvi st.svis).2.1 ∈ keys0
      rcases h3 with h | h
      · rw [h]
        exact hdsvi
      · right
        rw [← hkeys]
        exact h

theorem gatewayScan_inv (env : Env) (gw : Nat) (serials : List String)
    (svis : Dict SviRecord) (hkv : ∀ p ∈ svis, p.2.vlanId = p.1) :
    ScanInv (svis.map Prod.fst) (gatewayScan env gw serials svis) := by
  unfold gatewayScan
  suffices h : ∀ (ser : List String) (st : ScanState), ScanInv (svis.map Prod.fst) st →
      ScanInv (svis.map Prod.fst) (ser.foldl (scanSerial env gw) st) by
    exact h serials ⟨svis, "", [], false⟩ ⟨hkv, rfl, .inl rfl⟩
  intro ser
  induction ser with
  | nil => exact fun st h => h
  | cons s ss ih =>
    intro st h
    exact ih _ (scanSerial_inv env gw s _ st h)

theorem pyDictDel_of_mem_keys {m : Dict α} {k : String} (h : k ∈ m.map Prod.fst) :
    pyDictDel m k = .ok (m.filter (fun p => p.1 != k)) := by
  unfold pyDictDel
  rw [if_pos ?_]
  unfold dictHasKey
  rw [List.any_eq_true]
  obtain ⟨p, hp, hpk⟩ := List.mem_map.mp h
  exact ⟨p, hp, by rw [hpk]; exact beq_self_eq_true k⟩

/-- C9: once the gateway scan has selected a default SVI, the removal
phase deletes exactly that entry from the working dictionary, the bulk
phase enumerates precisely the remaining records — one create call per
record per serial, no duplicates — and no bulk create call carries the
default SVI's VLAN ID. -/
theorem c9_default_svi_removed_before_bulk
    (env : Env) (gw : Nat) (serials : List String) (svi_data : Dict SviRecord)
    (shut : List String) (intf_configs : Dict IntfConfig)
    (hkv : ∀ p ∈ svi_data, p.2.vlanId = p.1)
    (hnodup : (svi_data.map Prod.fst).Nodup)
    (hser : serials.Nodup)
    (hnoearly : (gatewayScan env gw serials svi_data).earlyReturn = false)
    (hsel : (gatewayScan env gw serials svi_data).defaultSvi ≠ "") :
    ∃ svis2,
      gwRemovePhase (gatewayScan env gw serials svi_data).svis
          (gatewayScan env gw serials svi_data).defaultSvi = .ok (svis2, false) ∧
      (configure_meraki env gw serials svi_data shut intf_configs).calls =
        (gatewayScan env gw serials svi_data).calls ++ bulkSviCalls serials svis2 ++
          (applyIntfPhase serials shut intf_configs).1 ∧
      (∀ s r, ApiCall.createRoutingInterface s r ∈ bulkSviCalls serials svis2 →
        r.vlanId ≠ (gatewayScan env gw serials svi_data).defaultSvi) ∧
      (∀ p ∈ (gatewayScan env gw serials svi_data).svis,
        p.1 ≠ (gatewayScan env gw serials svi_data).defaultSvi →
        ∀ s ∈ serials, ApiCall.createRoutingInterface s p.2 ∈ bulkSviCalls serials svis2) ∧
      (bulkSviCalls serials svis2).Nodup := by
  obtain ⟨hkv', hkeys, hdsvi⟩ := gatewayScan_inv env gw serials svi_data hkv
  have hdin : (gatewayScan env gw serials svi_data).defaultSvi ∈
      (gatewayScan env gw serials svi_data).svis.map Prod.fst := by
    rcases hdsvi with h | h
    · exact absurd h hsel
    · rw [hkeys]
      exact h
  have hdel : pyDictDel (gatewayScan env gw serials svi_data).svis
        (gatewayScan env gw serials svi_data).defaultSvi =
      .ok ((gatewayScan env gw serials svi_data).svis.filter
        (fun p => p.1 != (gatewayScan env gw serials svi_data).defaultSvi)) :=
    pyDictDel_of_mem_keys hdin
  have hrem : gwRemovePhase (gatewayScan env gw serials svi_data).svis
        (gatewayScan env gw serials svi_data).defaultSvi =
      .ok ((gatewayScan env gw serials svi_data).svis.filter
        (fun p => p.1 != (gatewayScan env gw serials svi_data).defaultSvi), false) := by
    unfold gwRemovePhase
    rw [if_pos (bne_iff_ne.mpr hsel), hdel]
    rfl
  refine ⟨_, hrem, ?_, ?_, ?_, ?_⟩
  · unfold configure_meraki
    rw [if_neg (by rw [hnoearly]; exact Bool.false_ne_true), hrem]
  · intro s r hmem
    obtain ⟨p, hp, hmem2⟩ := List.mem_flatMap.mp hmem
    obtain ⟨s', hs', heq⟩ := List.mem_map.mp hmem2
    cases heq
    have hpmem : p ∈ (gatewayScan env gw serials svi_data).svis :=
      (List.mem_filter.mp hp).1
    have hne : (p.1 != (gatewayScan env gw serials svi_data).defaultSvi) = true :=
      (List.mem_filter.mp hp).2
    rw [bne_iff_ne] at hne
    rw [hkv' p hpmem]
    exact hne
  · intro p hp hne s hs
    exact List.mem_flatMap.mpr
      ⟨p, List.mem_filter.mpr ⟨hp, bne_iff_ne.mpr hne⟩, List.mem_map.mpr ⟨s, hs, rfl⟩⟩
  · unfold bulkSviCalls
    rw [List.nodup_flatMap]
    constructor
    · intro p _
      apply List.Nodup.map ?_ hser
      intro a b hab
      cases hab
      rfl
    · have hsub : ((gatewayScan env gw serials svi_data).svis.filter
          (fun p => p.1 != (gatewayScan env gw serials svi_data).defaultSvi)).Sublist
          (gatewayScan env gw serials svi_data).svis := List.filter_sublist _
      have h2 : (((gatewayScan env gw serials svi_data).svis.filter
          (fun p => p.1 != (gatewayScan env gw serials svi_data).defaultSvi)).map
            Prod.fst).Nodup :=
        List.Nodup.sublist (hsub.map Prod.fst) (by rw [hkeys]; exact hnodup)
      have hpair := List.pairwise_map.mp h2
      refine hpair.imp_of_mem ?_
      intro a b ha hb hne1
      intro call hc1 hc2
      obtain ⟨s1, -, heq1⟩ := List.mem_map.mp hc1
      obtain ⟨s2, -, heq2⟩ := List.mem_map.mp hc2
      rw [← heq1] at heq2
      have hval : b.2 = a.2 := by
        injection heq2 with hs12 hval2
      apply hne1
      have hamem : a ∈ (gatewayScan env gw serials svi_data).svis :=
        (List.mem_filter.mp ha).1
      have hbmem : b ∈ (gatewayScan env gw serials svi_data).svis :=
        (List.mem_filter.mp hb).1
      rw [← hkv' a hamem, ← hkv' b hbmem, hval]

/-- Witness for C9: gateway `10.0.2.1`, SVIs `10.0.1.0/24` and
`10.0.2.0/24`, one target serial — the scan selects VLAN 20, the
removal phase succeeds, and the bulk calls are exactly the create for
VLAN 10. -/
theorem c9_default_svi_removed_before_bulk_witness :
    ∃ svis2,
      gwRemovePhase (gatewayScan envEmpty (ipv4 10 0 2 1) ["S1"] [("10", sviA), ("20", sviB)]).svis
          (gatewayScan envEmpty (ipv4 10 0 2 1) ["S1"] [("10", sviA), ("20", sviB)]).defaultSvi =
        .ok (svis2, false) ∧
      (configure_meraki envEmpty (ipv4 10 0 2 1) ["S1"] [("10", sviA), ("20", sviB)] [] []).calls =
        (gatewayScan envEmpty (ipv4 10 0 2 1) ["S1"] [("10", sviA), ("20", sviB)]).calls ++
          bulkSviCalls ["S1"] svis2 ++ (applyIntfPhase ["S1"] [] []).1 ∧
      (∀ s r, ApiCall.createRoutingInterface s r ∈ bulkSviCalls ["S1"] svis2 →
        r.vlanId ≠
          (gatewayScan envEmpty (ipv4 10 0 2 1) ["S1"] [("10", sviA), ("20", sviB)]).defaultSvi) ∧
      (∀ p ∈ (gatewayScan envEmpty (ipv4 10 0 2 1) ["S1"] [("10", sviA), ("20", sviB)]).svis,
        p.1 ≠
          (gatewayScan envEmpty (ipv4 10 0 2 1) ["S1"] [("10", sviA), ("20", sviB)]).defaultSvi →
        ∀ s ∈ (["S1"] : List String),
          ApiCall.createRoutingInterface s p.2 ∈ bulkSviCalls ["S1"] svis2) ∧
      (bulkSviCalls ["S1"] svis2).Nodup :=
  c9_default_svi_removed_before_bulk envEmpty (ipv4 10 0 2 1) ["S1"]
    [("10", sviA), ("20", sviB)] [] []
    (by decide) (by decide) (by decide) (by decide) (by decide)
